import Mathlib

/-!
Verification of the content-acquisition subsystem of the `auto_agents`
repository: the `CrawlResult` model (src/tools/crawler/crawl_result.py),
the error taxonomy (src/tools/crawler/crawl_errors.py), the two concrete
engines `TavilyCrawler` (src/tools/crawler/tavily_crawler.py) and
`WebBaseCrawler` (src/tools/crawler/webbase_crawler.py), and the engine
factory (src/tools/crawl.py).

Python strings become `String`, dictionaries become association lists,
`None`-able strings become `Option String`, and machine effects (the HTTP
GET, the document loader, the Tavily API call, `os.getenv`) become explicit
outcome parameters threaded through the translated control flow.  Each
crawl call additionally reports a trace (how many GETs were issued, how
many loader invocations, with which headers/timeouts), so that claims about
"no network request is attempted" or "the loader is invoked exactly once"
are statable.  String primitives (substring search, strip, lower-casing)
are defined structurally on `List Char` so that every definition reduces in
the kernel.
-/

/-- Truthiness of a Python `Optional[str]`: `None` and `""` are falsy. -/
def pyTruthyStr : Option String → Bool
  | none => false
  | some s => !s.toList.isEmpty

/-- The `CrawlResult` dataclass of src/tools/crawler/crawl_result.py.
`metadata` values may be `None` in the source (e.g. `response_time`), hence
`Option String`.  `timestamp` is set at construction (`time.time()`); the
clock is irrelevant to every claim, so construction sites use `0`. -/
structure CrawlResult where
  url : String
  content : String
  status_code : Int
  headers : List (String × String)
  images : List String := []
  metadata : List (String × Option String) := []
  error : Option String := none
  timestamp : Nat := 0
deriving Repr, DecidableEq

/-- `CrawlResult.is_success` (crawl_result.py lines 18-26): status in
[200,300), non-empty content, falsy error. -/
def CrawlResult.is_success (r : CrawlResult) : Bool :=
  decide (200 ≤ r.status_code) && decide (r.status_code < 300)
    && !r.content.toList.isEmpty && !pyTruthyStr r.error

/-- `CrawlResult.is_error` (crawl_result.py lines 28-31): truthy error or
status `>= 400`. -/
def CrawlResult.is_error (r : CrawlResult) : Bool :=
  pyTruthyStr r.error || decide (400 ≤ r.status_code)

/-- Whether `pat` occurs at the start of `s`. -/
def listStartsWith : List Char → List Char → Bool
  | [], _ => true
  | _ :: _, [] => false
  | a :: as, b :: bs => a = b && listStartsWith as bs

/-- Whether `pat` occurs anywhere in `s` (structural substring search). -/
def listHasSub (pat : List Char) : List Char → Bool
  | [] => pat.isEmpty
  | c :: tl => listStartsWith pat (c :: tl) || listHasSub pat tl

/-- Python substring membership `pat in s`. -/
def strContains (s pat : String) : Bool :=
  listHasSub pat.toList s.toList

/-- Python whitespace as recognised by `str.strip()` (ASCII portion). -/
def isPyWs (c : Char) : Bool :=
  c = ' ' || c = '\t' || c = '\n' || c = '\x0d' || c = '\x0b' || c = '\x0c'

/-- Whether `s.strip()` is empty, i.e. `s` is blank. -/
def strBlank (s : String) : Bool :=
  s.toList.all isPyWs

/-- Python `str.strip()`: drop leading and trailing whitespace. -/
def pyStrip (s : String) : String :=
  String.mk (((s.toList.dropWhile isPyWs).reverse.dropWhile isPyWs).reverse)

/-- ASCII lower-casing of one character. -/
def charLower (c : Char) : Char :=
  if 'A' ≤ c && c ≤ 'Z' then Char.ofNat (c.toNat + 32) else c

/-- Characters CPython's `urlsplit` accepts inside a scheme. -/
def schemeChar (c : Char) : Bool :=
  c.isAlpha || c.isDigit || c = '+' || c = '-' || c = '.'

/-- Split a character list at the first `':'`, if any. -/
def splitAtFirstColon : List Char → Option (List Char × List Char)
  | [] => none
  | c :: cs =>
    if c = ':' then some ([], cs)
    else
      match splitAtFirstColon cs with
      | none => none
      | some (a, b) => some (c :: a, b)

/-- The scheme/netloc fragment of `urllib.parse.urlparse`'s result — the
only fields the two validators read. -/
structure UrlParts where
  scheme : String
  netloc : String
deriving Repr, DecidableEq

/-- Scheme recognition of CPython's `urlsplit`: the text before the first
`':'` is a scheme when it is non-empty, starts with an ASCII letter and
consists of scheme characters; it is lower-cased.  Otherwise the URL has no
scheme. -/
def urlSplitScheme (u : List Char) : List Char × List Char :=
  match splitAtFirstColon u with
  | none => ([], u)
  | some (before, after) =>
    match before with
    | [] => ([], u)
    | c :: _ =>
      if c.isAlpha && before.all schemeChar then
        (before.map charLower, after)
      else
        ([], u)

/-- Netloc extraction of CPython's `urlsplit`: present only when the text
after the scheme starts with `//`, running until `/`, `?` or `#`. -/
def urlNetlocOf : List Char → List Char
  | '/' :: '/' :: tl => tl.takeWhile (fun c => c ≠ '/' && c ≠ '?' && c ≠ '#')
  | _ => []

/-- Model of `urllib.parse.urlparse` restricted to the `scheme` and
`netloc` fields, after CPython's removal of the unsafe bytes tab/CR/LF.
(The rare `ValueError` paths of `urlsplit` — unbalanced IPv6 brackets — are
not modelled; both callers wrap the parse in `try/except` anyway.) -/
def urlparse (url : String) : UrlParts :=
  let u := url.toList.filter (fun c => c ≠ '\t' && c ≠ '\x0d' && c ≠ '\n')
  let p := urlSplitScheme u
  { scheme := String.mk p.1, netloc := String.mk (urlNetlocOf p.2) }

/-- `WebBaseCrawler.validate_url` (webbase_crawler.py lines 46-52):
`all([result.scheme in ('http', 'https'), result.netloc])`. -/
def WebBaseCrawler.validate_url (url : String) : Bool :=
  let r := urlparse url
  (r.scheme = "http" || r.scheme = "https") && !r.netloc.toList.isEmpty

/-- The character blocklist of `TavilyCrawler.validate_url`, the Python
string literal `'<>\"{}|\\^[]`'` (eleven characters; no space). -/
def tavilyBlockChars : List Char :=
  "<>\"\x7b\x7d|\\^[]\x60".toList

/-- `TavilyCrawler.validate_url` (tavily_crawler.py lines 86-104): scheme
in ('http', 'https'), non-empty netloc, and
`not any(c in url for c in '<>\"{}|\\^[]`')`. -/
def TavilyCrawler.validate_url (url : String) : Bool :=
  let r := urlparse url
  (r.scheme = "http" || r.scheme = "https") && !r.netloc.toList.isEmpty
    && !(tavilyBlockChars.any (fun c => url.toList.contains c))

example : WebBaseCrawler.validate_url "http://example.com" = true := by decide
example : WebBaseCrawler.validate_url "notaurl" = false := by decide
example : TavilyCrawler.validate_url "http://a.b/<" = false := by decide
example : WebBaseCrawler.validate_url "http://a.b/<" = true := by decide
example : TavilyCrawler.validate_url "http://a.b/ x" = true := by decide
example : strContains "http://blog.csdn.net/x" "csdn.net" = true := by decide
example : strContains "http://example.com" "csdn.net" = false := by decide

/-- The exception values that can arise in the crawler subsystem: the
repository's own taxonomy (src/tools/crawler/crawl_errors.py), Python's
`ValueError`, and the `requests` library's exceptions (`HTTPError` from
`raise_for_status`, carrying the response status; other
`RequestException`s carrying a message).  `otherExc` stands for any
exception outside these families. -/
inductive PyExc where
  | valueError (msg : String)
  | httpError (status : Int)
  | requestException (msg : String)
  | configurationError (msg : String)
  | networkError (msg : String)
  | contentExtractionError (msg : String)
  | rateLimitError (msg : String)
  | authenticationError (msg : String)
  | otherExc (msg : String)
deriving Repr, DecidableEq

/-- Python `str(e)` for each modelled exception.  `requests` formats
`HTTPError` as `"<status> Client Error: ..."` / `"<status> Server Error:
..."`; the reason/url tail is irrelevant to every claim and elided. -/
def PyExc.str : PyExc → String
  | .valueError m => m
  | .httpError s => toString s ++ (if s < 500 then " Client Error" else " Server Error")
  | .requestException m => m
  | .configurationError m => m
  | .networkError m => m
  | .contentExtractionError m => m
  | .rateLimitError m => m
  | .authenticationError m => m
  | .otherExc m => m

/-- Whether an exception is a `ConfigurationError`. -/
def PyExc.isConfigError : PyExc → Bool
  | .configurationError _ => true
  | _ => false

/-- Whether an exception matches Python's
`except (ContentExtractionError, NetworkError)`. -/
def PyExc.isCEEorNet : PyExc → Bool
  | .contentExtractionError _ => true
  | .networkError _ => true
  | _ => false

/-- A `requests.Session.headers` dictionary: an insertion-ordered mapping
from header name to value. -/
abbrev Headers := List (String × String)

/-- Dictionary lookup: the value at the first (and, for a Python dict,
only) occurrence of the key. -/
def hdrGet : Headers → String → Option String
  | [], _ => none
  | (k', v') :: t, k => if k' = k then some v' else hdrGet t k

/-- Python `dict` assignment of one key: overwrite in place if present,
else append. -/
def hdrSet : Headers → String → String → Headers
  | [], k, v => [(k, v)]
  | (k', v') :: t, k, v =>
    if k' = k then (k, v) :: t else (k', v') :: hdrSet t k v

/-- Python `dict.update`, key by key. -/
def hdrUpdate (h : Headers) : List (String × String) → Headers
  | [] => h
  | (k, v) :: rest => hdrUpdate (hdrSet h k v) rest

/-- The browser-profile headers installed by `WebBaseCrawler.__init__`
(webbase_crawler.py lines 25-40). -/
def initHeaders : Headers :=
  [("User-Agent", "Mozilla/5.0 (Windows NT 10.0; Win64; x64) AppleWebKit/537.36 (KHTML, like Gecko) Chrome/120.0.0.0 Safari/537.36"),
   ("Accept", "text/html,application/xhtml+xml,application/xml;q=0.9,image/avif,image/webp,image/apng,*/*;q=0.8,application/signed-exchange;v=b3;q=0.7"),
   ("Accept-Language", "zh-CN,zh;q=0.9,en;q=0.8"),
   ("Accept-Encoding", "gzip, deflate, br"),
   ("Cache-Control", "max-age=0"),
   ("Connection", "keep-alive"),
   ("Upgrade-Insecure-Requests", "1"),
   ("Sec-Fetch-Dest", "document"),
   ("Sec-Fetch-Mode", "navigate"),
   ("Sec-Fetch-Site", "none"),
   ("Sec-Fetch-User", "?1"),
   ("sec-ch-ua", "\"Not_A Brand\";v=\"8\", \"Chromium\";v=\"120\""),
   ("sec-ch-ua-mobile", "?0"),
   ("sec-ch-ua-platform", "\"Windows\"")]

/-- The CSDN override installed by `crawl`/`acrawl` when `'csdn.net' in
url` (webbase_crawler.py lines 74-78 and 149-153). -/
def csdnHeaders : List (String × String) :=
  [("Referer", "https://blog.csdn.net/"),
   ("Cookie", "uuid_tt_dd=1_0; dc_session_id=1_1")]

/-- The session headers in effect for one `crawl`/`acrawl` call: the CSDN
override is merged exactly when the URL contains `csdn.net`. -/
def csdnAdjust (h : Headers) (url : String) : Headers :=
  if strContains url "csdn.net" then hdrUpdate h csdnHeaders else h

/-- A `requests.Response` as far as the engine reads it: final status code,
headers, and the body decoded after `response.encoding =
response.apparent_encoding`. -/
structure HttpResponse where
  status_code : Int
  headers : List (String × String)
  text : String
deriving Repr, DecidableEq

/-- Outcome of `self.session.get(...)`: a response, or a raised exception
(`RequestException`, timeout, ...). -/
inductive FetchOutcome where
  | ok (resp : HttpResponse)
  | exc (e : PyExc)
deriving Repr, DecidableEq

/-- Outcome of `WebBaseLoader(...).load()`: the `page_content` of each
returned document, or a raised exception. -/
inductive LoadOutcome where
  | ok (docs : List String)
  | exc (e : PyExc)
deriving Repr, DecidableEq

/-- The machine's behaviour during one `WebBaseCrawler` crawl call: what
the (single) GET would yield, and what the fallback loader would yield if
invoked. -/
structure WebEnv where
  fetch : FetchOutcome
  load : LoadOutcome
deriving Repr, DecidableEq

/-- Observable I/O trace of one `WebBaseCrawler` crawl call. -/
structure WebTrace where
  getCount : Nat
  getHeaders : Option Headers
  getTimeout : Option Nat
  loaderCount : Nat
  loaderHeaders : Option Headers
  loaderTimeout : Option Nat
deriving Repr, DecidableEq

/-- Trace of a call that performed no I/O at all. -/
def WebTrace.none : WebTrace := ⟨0, Option.none, Option.none, 0, Option.none, Option.none⟩

/-- Trace of a call that issued the GET (headers `h`, timeout 30) and never
reached the loader. -/
def WebTrace.getOnly (h : Headers) : WebTrace :=
  ⟨1, some h, some 30, 0, Option.none, Option.none⟩

/-- Trace of a call that issued the GET and then invoked the loader once,
with the same session headers and the same 30-second timeout
(webbase_crawler.py lines 94-104). -/
def WebTrace.getAndLoad (h : Headers) : WebTrace :=
  ⟨1, some h, some 30, 1, some h, some 30⟩

/-- `requests.Response.raise_for_status`: raises `HTTPError` exactly for
status codes in [400, 600). -/
def raiseForStatus (status : Int) : Bool :=
  decide (400 ≤ status) && decide (status < 600)

/-- The success result built at webbase_crawler.py lines 111-117. -/
def webSuccessResult (url content : String) (resp : HttpResponse) : CrawlResult :=
  { url := url, content := content, status_code := resp.status_code,
    headers := resp.headers, metadata := [("source", some url)] }

/-- The error result built in the `except` handler of
`WebBaseCrawler.crawl` (webbase_crawler.py lines 119-127): status is the
synthesized constant 500, content empty, error `str(e)`. -/
def webErrorResult (url : String) (e : PyExc) : CrawlResult :=
  { url := url, content := "", status_code := 500, headers := [],
    error := some e.str }

/-- The `try` block of `WebBaseCrawler.crawl` (webbase_crawler.py lines
80-117), run with session headers `h`: GET (timeout 30, redirects
followed), `raise_for_status`, decode, fall back to `WebBaseLoader` (same
headers, timeout 30) when the body is blank, raise
`ContentExtractionError` when the loader yields nothing. -/
def webCrawlBody (h : Headers) (url : String) (env : WebEnv) :
    Except PyExc CrawlResult × WebTrace :=
  match env.fetch with
  | .exc e => (.error e, WebTrace.getOnly h)
  | .ok resp =>
    if raiseForStatus resp.status_code then
      (.error (.httpError resp.status_code), WebTrace.getOnly h)
    else
      let content := resp.text
      if strBlank content then
        match env.load with
        | .exc e => (.error e, WebTrace.getAndLoad h)
        | .ok docs =>
          match docs with
          | [] => (.error (.contentExtractionError "No content extracted"),
                   WebTrace.getAndLoad h)
          | d :: _ =>
            if strBlank d then
              (.error (.contentExtractionError "No content extracted"),
               WebTrace.getAndLoad h)
            else
              (.ok (webSuccessResult url d resp), WebTrace.getAndLoad h)
      else
        (.ok (webSuccessResult url content resp), WebTrace.getOnly h)

/-- Result of one `WebBaseCrawler` crawl call: the returned `CrawlResult`,
the session headers after the call, and the I/O trace. -/
structure WebCrawlOut where
  result : CrawlResult
  headers : Headers
  trace : WebTrace
deriving Repr, DecidableEq

/-- `WebBaseCrawler.crawl` (webbase_crawler.py lines 62-127): reject
invalid URLs with a 400 `CrawlResult` before any I/O; merge the CSDN
header override when the URL contains `csdn.net`; run the `try` block;
convert any raised exception into a 500 `CrawlResult` with `error=str(e)`.
The session headers `h` are the engine state before the call. -/
def WebBaseCrawler.crawl (h : Headers) (url : String) (env : WebEnv) : WebCrawlOut :=
  if WebBaseCrawler.validate_url url = false then
    { result := { url := url, content := "", status_code := 400,
                  headers := [], error := some "Invalid URL" },
      headers := h, trace := WebTrace.none }
  else
    let h1 := csdnAdjust h url
    match webCrawlBody h1 url env with
    | (.ok r, t) => { result := r, headers := h1, trace := t }
    | (.error e, t) => { result := webErrorResult url e, headers := h1, trace := t }

/-- The `try` block of `WebBaseCrawler.acrawl` (webbase_crawler.py lines
158-204): identical control flow to the synchronous body, executed via
`run_in_executor`; only the `ContentExtractionError` message and the
success metadata differ. -/
def webACrawlBody (h : Headers) (url : String) (env : WebEnv) :
    Except PyExc CrawlResult × WebTrace :=
  match env.fetch with
  | .exc e => (.error e, WebTrace.getOnly h)
  | .ok resp =>
    if raiseForStatus resp.status_code then
      (.error (.httpError resp.status_code), WebTrace.getOnly h)
    else
      let content := resp.text
      if strBlank content then
        match env.load with
        | .exc e => (.error e, WebTrace.getAndLoad h)
        | .ok docs =>
          match docs with
          | [] => (.error (.contentExtractionError "No content extracted by WebBaseLoader async"),
                   WebTrace.getAndLoad h)
          | d :: _ =>
            if strBlank d then
              (.error (.contentExtractionError "No content extracted by WebBaseLoader async"),
               WebTrace.getAndLoad h)
            else
              (.ok { url := url, content := d, status_code := resp.status_code,
                     headers := resp.headers,
                     metadata := [("source", some url), ("method", some "async")] },
               WebTrace.getAndLoad h)
      else
        (.ok { url := url, content := content, status_code := resp.status_code,
               headers := resp.headers,
               metadata := [("source", some url), ("method", some "async")] },
         WebTrace.getOnly h)

/-- `WebBaseCrawler.acrawl` (webbase_crawler.py lines 129-214): same
validation, CSDN override and exception conversion as `crawl`. -/
def WebBaseCrawler.acrawl (h : Headers) (url : String) (env : WebEnv) : WebCrawlOut :=
  if WebBaseCrawler.validate_url url = false then
    { result := { url := url, content := "", status_code := 400,
                  headers := [], error := some "Invalid URL" },
      headers := h, trace := WebTrace.none }
  else
    let h1 := csdnAdjust h url
    match webACrawlBody h1 url env with
    | (.ok r, t) => { result := r, headers := h1, trace := t }
    | (.error e, t) => { result := webErrorResult url e, headers := h1, trace := t }

/-- One operation on a `WebBaseCrawler` instance. -/
inductive WebOp where
  | crawlOp (url : String) (env : WebEnv)
  | acrawlOp (url : String) (env : WebEnv)
  | cleanupOp
deriving Repr, DecidableEq

/-- The session headers after one operation.  `cleanup`
(webbase_crawler.py lines 42-44) closes the session's connections but
leaves `session.headers` untouched. -/
def WebOp.applyHeaders (h : Headers) : WebOp → Headers
  | .crawlOp url env => (WebBaseCrawler.crawl h url env).headers
  | .acrawlOp url env => (WebBaseCrawler.acrawl h url env).headers
  | .cleanupOp => h

/-- The session headers after a sequence of operations on one engine
instance. -/
def runWebOps (h : Headers) : List WebOp → Headers
  | [] => h
  | op :: rest => runWebOps (op.applyHeaders h) rest

/-- One entry of the Tavily response's `results` list, as read by
`_parse_tavily_response`: `raw_content` (missing key defaults to `""`) and
`images` (missing key defaults to `[]`). -/
structure TavilyItem where
  raw_content : String
  images : List String := []
deriving Repr, DecidableEq

/-- One entry of the Tavily response's `failed_results` list: a dict whose
`error` key may be absent, or a non-dict value. -/
inductive TavilyFailed where
  | dict (error : Option String)
  | nonDict
deriving Repr, DecidableEq

/-- A Tavily API response that is a dict, as read by
`_parse_tavily_response` and the metadata construction. -/
structure TavilyResponse where
  results : List TavilyItem
  failed_results : List TavilyFailed := []
  response_time : Option String := none
deriving Repr, DecidableEq

/-- The error message chosen at tavily_crawler.py lines 126-132 when
`results` is empty. -/
def tavilyFailMsg : List TavilyFailed → String
  | .dict e :: _ => "Extraction failed: " ++ e.getD "Unknown error"
  | .nonDict :: _ => "No content extracted"
  | [] => "No content extracted"

/-- `TavilyCrawler._parse_tavily_response` (tavily_crawler.py lines
107-140).  A raw value of `none` is a non-dict response (the `isinstance`
guard); the formatted-repr tail of that message is elided. -/
def tavilyParse (raw : Option TavilyResponse) :
    Except PyExc (String × List String) :=
  match raw with
  | none => .error (.contentExtractionError "Invalid response format")
  | some r =>
    match r.results with
    | [] => .error (.contentExtractionError (tavilyFailMsg r.failed_results))
    | first :: _ =>
      let content := pyStrip first.raw_content
      if content.toList.isEmpty then
        .error (.contentExtractionError "Empty content extracted")
      else
        .ok (content, first.images)

/-- Outcome of `self.client.invoke({"urls": [url]})`: a response value
(`none` = non-dict), or a raised exception. -/
inductive InvokeOutcome where
  | ok (raw : Option TavilyResponse)
  | exc (e : PyExc)
deriving Repr, DecidableEq

/-- `TavilyCrawler._crawl_impl` (tavily_crawler.py lines 143-176), paired
with the number of client invocations performed.  `ContentExtractionError`
and `NetworkError` are re-raised as-is; any other exception is wrapped
into `NetworkError("Tavily extraction error: ...")`. -/
def tavilyCrawlImpl (url : String) (inv : InvokeOutcome) :
    Except PyExc CrawlResult × Nat :=
  match inv with
  | .exc e =>
    if e.isCEEorNet then (.error e, 1)
    else (.error (.networkError ("Tavily extraction error: " ++ e.str)), 1)
  | .ok raw =>
    match tavilyParse raw with
    | .error e => (.error e, 1)
    | .ok (content, images) =>
      (.ok { url := url, content := content, images := images,
             status_code := 200, headers := [],
             metadata := [("source", some "tavily_extract"),
                          ("response_time", (raw.getD ⟨[], [], none⟩).response_time)] },
       1)

/-- `TavilyCrawler.crawl` (tavily_crawler.py lines 179-197): raise
`ValueError` on an invalid URL before any client invocation, else run
`_crawl_impl`; exceptions from `_crawl_impl` propagate to the caller. -/
def TavilyCrawler.crawl (url : String) (inv : InvokeOutcome) :
    Except PyExc CrawlResult × Nat :=
  if TavilyCrawler.validate_url url = false then
    (.error (.valueError ("Invalid URL: " ++ url)), 0)
  else
    tavilyCrawlImpl url inv

/-- The `TavilyConfig` dataclass (tavily_crawler.py lines 26-33). -/
structure TavilyConfig where
  api_key : String
  extract_depth : String := "advanced"
  include_images : Bool := true
  format : String := "markdown"
  user_agent : String := ""
deriving Repr, DecidableEq

/-- The default user agent of `TavilyConfig.from_env`. -/
def tavilyDefaultUA : String :=
  "Mozilla/5.0 (Windows NT 10.0; Win64; x64) AppleWebKit/537.36 (KHTML, like Gecko) Chrome/120.0.0.0 Safari/537.36"

/-- `TavilyConfig.from_env` (tavily_crawler.py lines 35-46), over an
explicit environment.  `if not api_key` treats both an absent variable and
an empty string as missing, and raises `AuthenticationError`. -/
def TavilyConfig.from_env (env : String → Option String) :
    Except PyExc TavilyConfig :=
  if pyTruthyStr (env "TAVILY_API_KEY") = false then
    .error (.authenticationError "TAVILY_API_KEY environment variable is required")
  else
    .ok { api_key := (env "TAVILY_API_KEY").getD "",
          user_agent := (env "USER_AGENT").getD tavilyDefaultUA }

/-- `TavilyCrawler.__init__` (tavily_crawler.py lines 54-61), paired with
the number of network requests it performs — always `0`: the client is
built lazily by the `client` cached property, so construction touches the
network never. -/
def TavilyCrawler.init (config : Option TavilyConfig)
    (env : String → Option String) : Except PyExc TavilyConfig × Nat :=
  match config with
  | some c => (.ok c, 0)
  | none =>
    match TavilyConfig.from_env env with
    | .ok c => (.ok c, 0)
    | .error e => (.error e, 0)

/-- The `CrawlerEngine` enum of src/config/tool_config.py. -/
inductive CrawlerEngine where
  | tavily
  | requests
  | custom
deriving Repr, DecidableEq

/-- An engine object as returned by the factory.  `objId` models Python
object identity: each evaluation of `TavilyCrawler()` / `WebBaseCrawler()`
allocates a fresh object, so two objects are the same instance iff their
ids coincide. -/
structure EngineInstance where
  engine : CrawlerEngine
  objId : Nat
deriving Repr, DecidableEq

/-- `CrawlerEngineFactory.get_crawler` (src/tools/crawl.py lines 17-31):
dispatch on the engine type and construct an engine with a constructor
call — there is no cache in the source; each call allocates.  `nextId` is
the allocation counter (threaded, returned incremented on success);
constructing a `TavilyCrawler` runs `TavilyConfig.from_env` and can raise;
an unsupported engine raises `ValueError`. -/
def CrawlerEngineFactory.get_crawler (engine_type : CrawlerEngine)
    (env : String → Option String) (nextId : Nat) :
    Except PyExc (EngineInstance × Nat) :=
  match engine_type with
  | .tavily =>
    match TavilyConfig.from_env env with
    | .error e => .error e
    | .ok _ => .ok ({ engine := .tavily, objId := nextId }, nextId + 1)
  | .requests => .ok ({ engine := .requests, objId := nextId }, nextId + 1)
  | .custom => .error (.valueError "Unsupported crawler engine: CrawlerEngine.CUSTOM")

/-- The CSDN override is in effect in session headers `h`. -/
def csdnApplied (h : Headers) : Prop :=
  hdrGet h "Referer" = some "https://blog.csdn.net/" ∧
  hdrGet h "Cookie" = some "uuid_tt_dd=1_0; dc_session_id=1_1"

instance (h : Headers) : Decidable (csdnApplied h) := by
  unfold csdnApplied
  infer_instance

theorem hdrGet_hdrSet_self (h : Headers) (k v : String) :
    hdrGet (hdrSet h k v) k = some v := by
  induction h with
  | nil => simp [hdrSet, hdrGet]
  | cons a t ih =>
    obtain ⟨k', v'⟩ := a
    by_cases hk : k' = k <;> simp [hdrSet, hdrGet, hk, ih]

theorem hdrGet_hdrSet_ne (h : Headers) (k v k' : String) (hne : k' ≠ k) :
    hdrGet (hdrSet h k v) k' = hdrGet h k' := by
  have hne' : k ≠ k' := Ne.symm hne
  induction h with
  | nil => simp [hdrSet, hdrGet, hne']
  | cons a t ih =>
    obtain ⟨k0, v0⟩ := a
    by_cases hk : k0 = k
    · subst hk
      simp [hdrSet, hdrGet, hne']
    · simp [hdrSet, hdrGet, hk, ih]

theorem csdnApplied_hdrUpdate (h : Headers) :
    csdnApplied (hdrUpdate h csdnHeaders) := by
  have hne : ("Referer" : String) ≠ "Cookie" := by decide
  constructor
  · show hdrGet (hdrSet (hdrSet h "Referer" "https://blog.csdn.net/")
      "Cookie" "uuid_tt_dd=1_0; dc_session_id=1_1") "Referer" = _
    rw [hdrGet_hdrSet_ne _ _ _ _ hne, hdrGet_hdrSet_self]
  · show hdrGet (hdrSet (hdrSet h "Referer" "https://blog.csdn.net/")
      "Cookie" "uuid_tt_dd=1_0; dc_session_id=1_1") "Cookie" = _
    rw [hdrGet_hdrSet_self]

theorem csdnApplied_csdnAdjust (h : Headers) (url : String)
    (hc : csdnApplied h) : csdnApplied (csdnAdjust h url) := by
  unfold csdnAdjust
  by_cases hs : strContains url "csdn.net" = true
  · simp [hs, csdnApplied_hdrUpdate]
  · simp [hs, hc]

theorem crawl_headers_cases (h : Headers) (url : String) (env : WebEnv) :
    (WebBaseCrawler.crawl h url env).headers = h ∨
    (WebBaseCrawler.crawl h url env).headers = csdnAdjust h url := by
  unfold WebBaseCrawler.crawl
  by_cases hv : WebBaseCrawler.validate_url url = false
  · simp [hv]
  · simp [hv]
    rcases webCrawlBody (csdnAdjust h url) url env with ⟨r | e, t⟩ <;> simp

theorem acrawl_headers_cases (h : Headers) (url : String) (env : WebEnv) :
    (WebBaseCrawler.acrawl h url env).headers = h ∨
    (WebBaseCrawler.acrawl h url env).headers = csdnAdjust h url := by
  unfold WebBaseCrawler.acrawl
  by_cases hv : WebBaseCrawler.validate_url url = false
  · simp [hv]
  · simp [hv]
    rcases webACrawlBody (csdnAdjust h url) url env with ⟨r | e, t⟩ <;> simp

theorem csdnApplied_applyHeaders (h : Headers) (op : WebOp)
    (hc : csdnApplied h) : csdnApplied (op.applyHeaders h) := by
  cases op with
  | crawlOp url env =>
    rcases crawl_headers_cases h url env with he | he <;>
      simp only [WebOp.applyHeaders, he]
    · exact hc
    · exact csdnApplied_csdnAdjust h url hc
  | acrawlOp url env =>
    rcases acrawl_headers_cases h url env with he | he <;>
      simp only [WebOp.applyHeaders, he]
    · exact hc
    · exact csdnApplied_csdnAdjust h url hc
  | cleanupOp => exact hc

theorem csdnApplied_runWebOps (h : Headers) (ops : List WebOp)
    (hc : csdnApplied h) : csdnApplied (runWebOps h ops) := by
  induction ops generalizing h with
  | nil => exact hc
  | cons op rest ih =>
    exact ih _ (csdnApplied_applyHeaders h op hc)

/-- C2: for every `CrawlResult`, `is_success` and `is_error` are never both
true — `is_success` (status in [200,300), non-empty content, empty error)
excludes `is_error` (non-empty error or status ≥ 400) and vice versa. -/
theorem crawlResult_success_error_exclusive (r : CrawlResult) :
    (r.is_success && r.is_error) = false := by
  rcases r with ⟨u, c, sc, hd, im, md, er, ts⟩
  simp only [CrawlResult.is_success, CrawlResult.is_error]
  cases he : pyTruthyStr er
  · simp only [he, Bool.not_false, Bool.and_true, Bool.false_or]
    by_cases h4 : (400 : Int) ≤ sc
    · have h3 : ¬ sc < 300 := by omega
      simp [h3]
    · simp [h4]
  · simp [he]

/-- C10: the success/error flags are not exhaustive — a redirect-status
result with content and no error, and a 2xx result with empty content and
no error, each have both `is_success` and `is_error` false. -/
theorem crawlResult_flags_not_exhaustive :
    (CrawlResult.is_success ⟨"http://a.b", "x", 300, [], [], [], none, 0⟩ = false ∧
     CrawlResult.is_error ⟨"http://a.b", "x", 300, [], [], [], none, 0⟩ = false) ∧
    (CrawlResult.is_success ⟨"http://a.b", "", 200, [], [], [], none, 0⟩ = false ∧
     CrawlResult.is_error ⟨"http://a.b", "", 200, [], [], [], none, 0⟩ = false) := by
  decide

/-- C4 counterexample: the two engines do not share one validation
predicate — a URL containing `<` is rejected by the Tavily validator but
accepted by the WebBase validator — and the Tavily blocklist does not
contain the space character: a URL with a space validates. -/
theorem validators_differ_counterexample :
    TavilyCrawler.validate_url "http://a.b/<" = false ∧
    WebBaseCrawler.validate_url "http://a.b/<" = true ∧
    TavilyCrawler.validate_url "http://a.b/ x" = true ∧
    WebBaseCrawler.validate_url "http://a.b/ x" = true := by
  decide

/-- C4 amended: both validators require scheme `http`/`https` and a
non-empty netloc; only the Tavily validator additionally rejects URLs
containing one of the eleven blocklist characters `<>"{}|\^[]` + backtick
(space not included), so Tavily validity is WebBase validity plus the
blocklist check. -/
theorem validate_url_characterization (url : String) :
    TavilyCrawler.validate_url url =
      (WebBaseCrawler.validate_url url &&
       !(tavilyBlockChars.any (fun c => url.toList.contains c))) := by
  simp only [TavilyCrawler.validate_url, WebBaseCrawler.validate_url, Bool.and_assoc]

/-- C3: a URL failing an engine's validation short-circuits before any
engine-specific work — `WebBaseCrawler.crawl` returns a `CrawlResult` with
status 400, empty content and error `"Invalid URL"`, leaving session
headers untouched and performing no GET and no loader call;
`TavilyCrawler.crawl` raises `ValueError` with zero client invocations. -/
theorem invalid_url_short_circuits :
    (∀ (h : Headers) (url : String) (env : WebEnv),
       WebBaseCrawler.validate_url url = false →
       (WebBaseCrawler.crawl h url env).result.status_code = 400 ∧
       (WebBaseCrawler.crawl h url env).result.content = "" ∧
       (WebBaseCrawler.crawl h url env).result.error = some "Invalid URL" ∧
       (WebBaseCrawler.crawl h url env).trace = WebTrace.none ∧
       (WebBaseCrawler.crawl h url env).headers = h) ∧
    (∀ (url : String) (inv : InvokeOutcome),
       TavilyCrawler.validate_url url = false →
       TavilyCrawler.crawl url inv =
         (.error (.valueError ("Invalid URL: " ++ url)), 0)) := by
  constructor
  · intro h url env hv
    simp [WebBaseCrawler.crawl, hv]
  · intro url inv hv
    simp [TavilyCrawler.crawl, hv]

/-- Witness for C3 at the concrete invalid URL `"notaurl"`. -/
theorem invalid_url_short_circuits_witness :
    (WebBaseCrawler.crawl [] "notaurl"
       ⟨.exc (.otherExc "boom"), .ok []⟩).result.status_code = 400 ∧
    TavilyCrawler.crawl "notaurl" (.exc (.otherExc "boom")) =
      (.error (.valueError "Invalid URL: notaurl"), 0) := by
  constructor
  · exact (invalid_url_short_circuits.1 [] "notaurl"
      ⟨.exc (.otherExc "boom"), .ok []⟩ (by decide)).1
  · have h2 := invalid_url_short_circuits.2 "notaurl" (.exc (.otherExc "boom")) (by decide)
    rw [h2]
    rfl

/-- C7 counterexample: with `TAVILY_API_KEY` absent,
`TavilyConfig.from_env` raises `AuthenticationError` — which is not a
`ConfigurationError` — so first use does not raise `ConfigurationError` as
the claim states. -/
theorem from_env_raises_authentication_error :
    TavilyConfig.from_env (fun _ => none) =
      .error (.authenticationError "TAVILY_API_KEY environment variable is required") ∧
    PyExc.isConfigError
      (.authenticationError "TAVILY_API_KEY environment variable is required") = false := by
  exact ⟨rfl, rfl⟩

/-- C7 amended: when the `TAVILY_API_KEY` environment variable is absent
(or empty, which `from_env` treats the same), constructing the engine with
no explicit config raises `AuthenticationError` — not `ConfigurationError`
— and performs zero network requests (the client is built lazily, never
during construction). -/
theorem tavily_missing_key_raises_auth_error (env : String → Option String)
    (henv : pyTruthyStr (env "TAVILY_API_KEY") = false) :
    TavilyCrawler.init none env =
      (.error (.authenticationError "TAVILY_API_KEY environment variable is required"), 0) := by
  unfold TavilyCrawler.init TavilyConfig.from_env
  simp [henv]

/-- Witness for C7 at the empty environment. -/
theorem tavily_missing_key_witness :
    pyTruthyStr ((fun _ => none : String → Option String) "TAVILY_API_KEY") = false ∧
    TavilyCrawler.init none (fun _ => none) =
      (.error (.authenticationError "TAVILY_API_KEY environment variable is required"), 0) :=
  ⟨rfl, tavily_missing_key_raises_auth_error (fun _ => none) rfl⟩

/-- C8 counterexample: the factory does not memoize — two successive
`get_crawler` calls for the same engine identifier construct two distinct
engine objects, so no call returns a cached singleton instance. -/
theorem factory_not_memoized_counterexample :
    CrawlerEngineFactory.get_crawler .requests (fun _ => none) 0 =
      .ok ({ engine := .requests, objId := 0 }, 1) ∧
    CrawlerEngineFactory.get_crawler .requests (fun _ => none) 1 =
      .ok ({ engine := .requests, objId := 1 }, 2) ∧
    ({ engine := .requests, objId := 0 } : EngineInstance) ≠
      { engine := .requests, objId := 1 } := by
  refine ⟨rfl, rfl, by decide⟩

/-- C8 amended: `CrawlerEngineFactory.get_crawler` maintains no cache at
all — every successful call runs a constructor and returns a freshly
allocated engine instance (object id equal to the current allocation
counter, which it advances), so successive calls never return the same
instance. -/
theorem factory_allocates_fresh_instance (e : CrawlerEngine)
    (env : String → Option String) (n : Nat) (inst : EngineInstance) (m : Nat)
    (hok : CrawlerEngineFactory.get_crawler e env n = .ok (inst, m)) :
    inst.objId = n ∧ m = n + 1 := by
  cases e with
  | tavily =>
    unfold CrawlerEngineFactory.get_crawler at hok
    rcases hfe : TavilyConfig.from_env env with e0 | c0 <;> rw [hfe] at hok
    · exact absurd hok (by simp)
    · simp only [Except.ok.injEq, Prod.mk.injEq] at hok
      exact ⟨by rw [← hok.1], hok.2.symm⟩
  | requests =>
    unfold CrawlerEngineFactory.get_crawler at hok
    simp only [Except.ok.injEq, Prod.mk.injEq] at hok
    exact ⟨by rw [← hok.1], hok.2.symm⟩
  | custom =>
    unfold CrawlerEngineFactory.get_crawler at hok
    exact absurd hok (by simp)

/-- Witness for C8: the first allocation from counter 0 yields object id 0
and advances the counter to 1. -/
theorem factory_allocates_fresh_instance_witness :
    ({ engine := CrawlerEngine.requests, objId := 0 } : EngineInstance).objId = 0 ∧
    (1 : Nat) = 0 + 1 :=
  factory_allocates_fresh_instance .requests (fun _ => none) 0
    { engine := .requests, objId := 0 } 1 rfl

theorem tavilyParse_error_isCEE (raw : Option TavilyResponse) (e : PyExc)
    (he : tavilyParse raw = .error e) : e.isCEEorNet = true := by
  rcases raw with _ | r
  · simp only [tavilyParse, Except.error.injEq] at he
    rw [← he]
    rfl
  · simp only [tavilyParse] at he
    rcases hres : r.results with _ | ⟨first, rest⟩ <;> rw [hres] at he
    · simp only [Except.error.injEq] at he
      rw [← he]
      rfl
    · by_cases hc : (pyStrip first.raw_content).toList.isEmpty = true
      · simp only [hc, if_true, Except.error.injEq] at he
        rw [← he]
        rfl
      · simp only [hc, if_false, reduceCtorEq] at he

/-- C1 counterexample: for the URL `http://example.com`, which passes the
Tavily validator, a Tavily response with an empty `results` list makes
`TavilyCrawler.crawl` raise `ContentExtractionError` to its caller instead
of returning a `CrawlResult` with `error` set — so `crawl` is not
raise-free for extraction failures on the API Extraction engine. -/
theorem tavily_crawl_raises_counterexample :
    TavilyCrawler.validate_url "http://example.com" = true ∧
    TavilyCrawler.crawl "http://example.com" (.ok (some ⟨[], [], none⟩)) =
      (.error (.contentExtractionError "No content extracted"), 1) := by
  exact ⟨by decide, rfl⟩

/-- C1 amended: only the Direct Fetch engine is raise-free — for every
validated URL, `WebBaseCrawler.crawl` converts any exception raised inside
its `try` block into a returned `CrawlResult` with status 500, `error =
str(e)` and `is_error` true; `TavilyCrawler.crawl`, by contrast,
propagates the exception to its caller, and every exception it propagates
on a validated URL is a `ContentExtractionError` or a `NetworkError`
(unexpected exceptions having been wrapped into `NetworkError`). -/
theorem crawl_error_conversion :
    (∀ (h : Headers) (url : String) (env : WebEnv) (e : PyExc) (t : WebTrace),
       WebBaseCrawler.validate_url url = true →
       webCrawlBody (csdnAdjust h url) url env = (.error e, t) →
       (WebBaseCrawler.crawl h url env).result = webErrorResult url e ∧
       (WebBaseCrawler.crawl h url env).result.error = some e.str ∧
       (WebBaseCrawler.crawl h url env).result.is_error = true) ∧
    (∀ (url : String) (inv : InvokeOutcome) (e : PyExc) (n : Nat),
       TavilyCrawler.validate_url url = true →
       TavilyCrawler.crawl url inv = (.error e, n) →
       e.isCEEorNet = true) := by
  constructor
  · intro h url env e t hv hb
    have hvne : ¬ WebBaseCrawler.validate_url url = false := by simp [hv]
    unfold WebBaseCrawler.crawl
    simp only [hvne, if_false, hb]
    refine ⟨rfl, rfl, ?_⟩
    simp [webErrorResult, CrawlResult.is_error]
  · intro url inv e n hv hcr
    have hcrawl : TavilyCrawler.crawl url inv = tavilyCrawlImpl url inv := by
      unfold TavilyCrawler.crawl
      simp [hv]
    rw [hcrawl] at hcr
    rcases inv with raw | e0
    · simp only [tavilyCrawlImpl] at hcr
      rcases hp : tavilyParse raw with e1 | v
      · rw [hp] at hcr
        simp only [Prod.mk.injEq, Except.error.injEq] at hcr
        rw [← hcr.1]
        exact tavilyParse_error_isCEE raw e1 hp
      · rcases v with ⟨content, images⟩
        rw [hp] at hcr
        simp at hcr
    · simp only [tavilyCrawlImpl] at hcr
      by_cases hk : e0.isCEEorNet = true
      · rw [if_pos hk] at hcr
        simp only [Prod.mk.injEq, Except.error.injEq] at hcr
        rw [← hcr.1]
        exact hk
      · rw [if_neg hk] at hcr
        simp only [Prod.mk.injEq, Except.error.injEq] at hcr
        rw [← hcr.1]
        rfl

/-- Witness for C1 at concrete failures: a `RequestException` during the
Direct Fetch GET becomes a returned error result, and an unexpected
exception during the Tavily call propagates as a `NetworkError`. -/
theorem crawl_error_conversion_witness :
    (WebBaseCrawler.crawl [] "http://example.com"
       ⟨.exc (.requestException "boom"), .ok []⟩).result =
      webErrorResult "http://example.com" (.requestException "boom") ∧
    PyExc.isCEEorNet (.networkError "Tavily extraction error: x") = true := by
  constructor
  · exact (crawl_error_conversion.1 [] "http://example.com"
      ⟨.exc (.requestException "boom"), .ok []⟩ (.requestException "boom")
      (WebTrace.getOnly (csdnAdjust [] "http://example.com")) (by decide) rfl).1
  · exact crawl_error_conversion.2 "http://example.com" (.exc (.otherExc "x"))
      (.networkError "Tavily extraction error: x") 1 (by decide) rfl

theorem strBlank_false_nonempty (s : String) (hs : strBlank s = false) :
    s.toList.isEmpty = false := by
  cases hl : s.toList with
  | nil =>
    unfold strBlank at hs
    rw [hl] at hs
    simp at hs
  | cons a t => simp

theorem strBlank_false_data_ne (s : String) (hs : strBlank s = false) :
    ¬ s.data = [] := by
  intro hnil
  unfold strBlank at hs
  rw [show s.toList = s.data from rfl, hnil] at hs
  simp at hs

theorem crawl_valid_shape (h : Headers) (url : String) (env : WebEnv)
    (hv : WebBaseCrawler.validate_url url = true) :
    (WebBaseCrawler.crawl h url env).headers = csdnAdjust h url ∧
    (WebBaseCrawler.crawl h url env).trace = (webCrawlBody (csdnAdjust h url) url env).2 := by
  unfold WebBaseCrawler.crawl
  simp only [hv, Bool.true_eq_false, if_false]
  rcases hb : webCrawlBody (csdnAdjust h url) url env with ⟨r | e, t⟩ <;> simp

theorem acrawl_valid_shape (h : Headers) (url : String) (env : WebEnv)
    (hv : WebBaseCrawler.validate_url url = true) :
    (WebBaseCrawler.acrawl h url env).headers = csdnAdjust h url := by
  unfold WebBaseCrawler.acrawl
  simp only [hv, Bool.true_eq_false, if_false]
  rcases hb : webACrawlBody (csdnAdjust h url) url env with ⟨r | e, t⟩ <;> simp

theorem webCrawlBody_getHeaders (h1 : Headers) (url : String) (env : WebEnv) :
    (webCrawlBody h1 url env).2.getHeaders = some h1 := by
  rcases env with ⟨fo, lo⟩
  rcases fo with resp | e
  · unfold webCrawlBody
    dsimp only
    by_cases hr : raiseForStatus resp.status_code = true
    · simp [hr, WebTrace.getOnly]
    · simp only [Bool.not_eq_true] at hr
      simp only [hr, Bool.false_eq_true, if_false]
      by_cases hbl : strBlank resp.text = true
      · simp only [hbl, if_true]
        rcases lo with docs | e'
        · rcases docs with _ | ⟨d, rest⟩
          · simp [WebTrace.getAndLoad]
          · by_cases hd : strBlank d = true <;>
              simp [hd, WebTrace.getAndLoad]
        · simp [WebTrace.getAndLoad]
      · simp only [Bool.not_eq_true] at hbl
        simp [hbl, WebTrace.getOnly]
  · simp [webCrawlBody, WebTrace.getOnly]

theorem webCrawlBody_reduce_fallback (h1 : Headers) (url : String)
    (env : WebEnv) (resp : HttpResponse)
    (hf : env.fetch = .ok resp) (hraise : raiseForStatus resp.status_code = false)
    (hblank : strBlank resp.text = true) :
    webCrawlBody h1 url env =
      match env.load with
      | .exc e => (.error e, WebTrace.getAndLoad h1)
      | .ok [] => (.error (.contentExtractionError "No content extracted"),
                   WebTrace.getAndLoad h1)
      | .ok (d :: _) =>
        if strBlank d = true then
          (.error (.contentExtractionError "No content extracted"),
           WebTrace.getAndLoad h1)
        else (.ok (webSuccessResult url d resp), WebTrace.getAndLoad h1) := by
  unfold webCrawlBody
  rw [hf]
  simp only [hraise, Bool.false_eq_true, if_false, hblank, if_true]
  rcases env.load with docs | e'
  · rcases docs with _ | ⟨d, rest⟩ <;> rfl
  · rfl

/-- C5: Direct Fetch fallback — for a validated URL whose GET succeeds with
a 2xx status but a blank body, `crawl` invokes the document loader exactly
once, with the same session headers and the same 30-second timeout as the
GET; if the loader yields a document with non-blank content the final
result is a success carrying that content; if the loader yields no
document or blank content, the body raises `ContentExtractionError` ("No
content extracted"), which `crawl` converts to a 500 error result. -/
theorem direct_fetch_empty_body_fallback
    (h : Headers) (url : String) (env : WebEnv) (resp : HttpResponse)
    (hv : WebBaseCrawler.validate_url url = true)
    (hf : env.fetch = .ok resp)
    (h2xx : 200 ≤ resp.status_code ∧ resp.status_code < 300)
    (hblank : strBlank resp.text = true) :
    ((WebBaseCrawler.crawl h url env).trace.loaderCount = 1 ∧
     (WebBaseCrawler.crawl h url env).trace.loaderHeaders =
       (WebBaseCrawler.crawl h url env).trace.getHeaders ∧
     (WebBaseCrawler.crawl h url env).trace.loaderTimeout =
       (WebBaseCrawler.crawl h url env).trace.getTimeout ∧
     (WebBaseCrawler.crawl h url env).trace.loaderTimeout = some 30) ∧
    (∀ d rest, env.load = .ok (d :: rest) → strBlank d = false →
       (WebBaseCrawler.crawl h url env).result.is_success = true ∧
       (WebBaseCrawler.crawl h url env).result.content = d) ∧
    (∀ docs, env.load = .ok docs →
       (docs = [] ∨ ∃ d rest, docs = d :: rest ∧ strBlank d = true) →
       webCrawlBody (csdnAdjust h url) url env =
         (.error (.contentExtractionError "No content extracted"),
          WebTrace.getAndLoad (csdnAdjust h url)) ∧
       (WebBaseCrawler.crawl h url env).result.error = some "No content extracted" ∧
       (WebBaseCrawler.crawl h url env).result.status_code = 500) := by
  have hraise : raiseForStatus resp.status_code = false := by
    rcases h2xx with ⟨ha, hb2⟩
    unfold raiseForStatus
    simp only [Bool.and_eq_false_iff, decide_eq_false_iff_not]
    left
    omega
  have hred := webCrawlBody_reduce_fallback (csdnAdjust h url) url env resp hf hraise hblank
  obtain ⟨hsh, hst⟩ := crawl_valid_shape h url env hv
  have htr : (webCrawlBody (csdnAdjust h url) url env).2 =
      WebTrace.getAndLoad (csdnAdjust h url) := by
    rw [hred]
    rcases hl : env.load with docs | e'
    · rcases docs with _ | ⟨d, rest⟩
      · simp
      · by_cases hd : strBlank d = true <;> simp [hd]
    · simp
  refine ⟨?_, ?_, ?_⟩
  · rw [hst, htr]
    exact ⟨rfl, rfl, rfl, rfl⟩
  · intro d rest hl hd
    have hbody : webCrawlBody (csdnAdjust h url) url env =
        (.ok (webSuccessResult url d resp), WebTrace.getAndLoad (csdnAdjust h url)) := by
      rw [hred, hl]
      simp [hd]
    have hres : (WebBaseCrawler.crawl h url env).result = webSuccessResult url d resp := by
      unfold WebBaseCrawler.crawl
      simp only [hv, Bool.true_eq_false, if_false, hbody]
    rcases h2xx with ⟨ha, hb2⟩
    constructor
    · rw [hres]
      simp [CrawlResult.is_success, webSuccessResult, pyTruthyStr, ha, hb2,
        strBlank_false_data_ne d hd]
    · rw [hres]
      rfl
  · intro docs hl hcase
    have hbody : webCrawlBody (csdnAdjust h url) url env =
        (.error (.contentExtractionError "No content extracted"),
         WebTrace.getAndLoad (csdnAdjust h url)) := by
      rw [hred, hl]
      rcases hcase with hnil | ⟨d, rest, hcons, hd⟩
      · rw [hnil]
      · rw [hcons]
        simp [hd]
    have hres : (WebBaseCrawler.crawl h url env).result =
        webErrorResult url (.contentExtractionError "No content extracted") := by
      unfold WebBaseCrawler.crawl
      simp only [hv, Bool.true_eq_false, if_false, hbody]
    exact ⟨hbody, by rw [hres]; rfl, by rw [hres]; rfl⟩

/-- Witness for C5: a mocked 200-with-blank-body GET followed by a loader
returning `"doc"` gives a success result whose content is `"doc"`. -/
theorem direct_fetch_empty_body_fallback_witness :
    (WebBaseCrawler.crawl [] "http://example.com"
       ⟨.ok ⟨200, [], ""⟩, .ok ["doc"]⟩).result.is_success = true ∧
    (WebBaseCrawler.crawl [] "http://example.com"
       ⟨.ok ⟨200, [], ""⟩, .ok ["doc"]⟩).result.content = "doc" :=
  (direct_fetch_empty_body_fallback [] "http://example.com"
      ⟨.ok ⟨200, [], ""⟩, .ok ["doc"]⟩ ⟨200, [], ""⟩
      (by decide) rfl (by decide) (by decide)).2.1 "doc" [] rfl (by decide)

/-- C6 counterexample: a GET answered with the real status 404 is
converted into a `CrawlResult` whose `status_code` is the synthesized 500,
not 404; and a non-2xx status like 304 does not trigger the session's
status check at all — the 304 response flows into the content path and is
returned with no error. -/
theorem direct_fetch_status_counterexample :
    ((WebBaseCrawler.crawl [] "http://example.com"
        ⟨.ok ⟨404, [], "body"⟩, .ok []⟩).result.status_code = 500 ∧
     (WebBaseCrawler.crawl [] "http://example.com"
        ⟨.ok ⟨404, [], "body"⟩, .ok []⟩).result.error = some "404 Client Error" ∧
     (500 : Int) ≠ 404) ∧
    ((WebBaseCrawler.crawl [] "http://example.com"
        ⟨.ok ⟨304, [], "body"⟩, .ok []⟩).result.error = none ∧
     (WebBaseCrawler.crawl [] "http://example.com"
        ⟨.ok ⟨304, [], "body"⟩, .ok []⟩).result.status_code = 304) := by
  exact ⟨⟨rfl, rfl, by decide⟩, rfl, rfl⟩

/-- C6 amended: when the GET completes with a 4xx/5xx status `s`, the
session's status check (`raise_for_status`, which fires exactly for
statuses in [400,600)) raises `HTTPError(s)`, and `crawl` converts it into
a network-error `CrawlResult` with the synthesized `status_code` 500 —
not the real status, which survives only inside the error message — empty
content, `is_error` true, and no loader invocation.  3xx statuses do not
raise. -/
theorem direct_fetch_http_error_conversion
    (h : Headers) (url : String) (env : WebEnv) (resp : HttpResponse)
    (hv : WebBaseCrawler.validate_url url = true)
    (hf : env.fetch = .ok resp)
    (hs : 400 ≤ resp.status_code ∧ resp.status_code < 600) :
    webCrawlBody (csdnAdjust h url) url env =
      (.error (.httpError resp.status_code), WebTrace.getOnly (csdnAdjust h url)) ∧
    (WebBaseCrawler.crawl h url env).result =
      webErrorResult url (.httpError resp.status_code) ∧
    (WebBaseCrawler.crawl h url env).result.status_code = 500 ∧
    (WebBaseCrawler.crawl h url env).result.is_error = true ∧
    (WebBaseCrawler.crawl h url env).trace.loaderCount = 0 := by
  have hraise : raiseForStatus resp.status_code = true := by
    rcases hs with ⟨ha, hb2⟩
    unfold raiseForStatus
    simp only [Bool.and_eq_true, decide_eq_true_eq]
    exact ⟨ha, hb2⟩
  have hbody : webCrawlBody (csdnAdjust h url) url env =
      (.error (.httpError resp.status_code), WebTrace.getOnly (csdnAdjust h url)) := by
    unfold webCrawlBody
    rw [hf]
    simp only [hraise, if_true]
  have hres : (WebBaseCrawler.crawl h url env).result =
      webErrorResult url (.httpError resp.status_code) := by
    unfold WebBaseCrawler.crawl
    simp only [hv, Bool.true_eq_false, if_false, hbody]
  obtain ⟨hsh, hst⟩ := crawl_valid_shape h url env hv
  refine ⟨hbody, hres, by rw [hres]; rfl, ?_, ?_⟩
  · rw [hres]
    simp [webErrorResult, CrawlResult.is_error]
  · rw [hst, hbody]
    rfl

/-- Witness for C6 at the concrete status 404. -/
theorem direct_fetch_http_error_conversion_witness :
    (WebBaseCrawler.crawl [] "http://example.com"
       ⟨.ok ⟨404, [], "body"⟩, .ok []⟩).result.status_code = 500 :=
  (direct_fetch_http_error_conversion [] "http://example.com"
      ⟨.ok ⟨404, [], "body"⟩, .ok []⟩ ⟨404, [], "body"⟩
      (by decide) rfl (by decide)).2.2.1

/-- C9 counterexample: the CSDN header mutation does not happen for every
URL containing `csdn.net` — the bare string `"csdn.net"` contains the
substring but fails URL validation, so `crawl` returns before the header
update and the session headers still lack a `Referer`. -/
theorem csdn_mutation_counterexample :
    strContains "csdn.net" "csdn.net" = true ∧
    (WebBaseCrawler.crawl initHeaders "csdn.net"
       ⟨.exc (.requestException "x"), .ok []⟩).headers = initHeaders ∧
    hdrGet initHeaders "Referer" = none := by
  exact ⟨by decide, rfl, by decide⟩

/-- C9 amended: for every URL that passes validation and contains
`csdn.net`, both `crawl` and `acrawl` install the Referer/Cookie override
into the shared session headers; the GET of that very call already sends
the overridden headers; the override persists through every subsequent
`crawl`, `acrawl` or `cleanup` on the same engine instance (no operation
removes it), and every subsequent validated crawl sends session headers
that still carry it. -/
theorem csdn_header_mutation_persists
    (h : Headers) (url : String) (env : WebEnv)
    (hv : WebBaseCrawler.validate_url url = true)
    (hc : strContains url "csdn.net" = true) :
    (csdnApplied (WebBaseCrawler.crawl h url env).headers ∧
     csdnApplied (WebBaseCrawler.acrawl h url env).headers ∧
     (WebBaseCrawler.crawl h url env).trace.getHeaders = some (csdnAdjust h url) ∧
     csdnApplied (csdnAdjust h url)) ∧
    (∀ ops, csdnApplied (runWebOps (WebBaseCrawler.crawl h url env).headers ops)) ∧
    (∀ h' url' env', csdnApplied h' → WebBaseCrawler.validate_url url' = true →
       (WebBaseCrawler.crawl h' url' env').trace.getHeaders = some (csdnAdjust h' url') ∧
       csdnApplied (csdnAdjust h' url')) := by
  have hadj : csdnApplied (csdnAdjust h url) := by
    unfold csdnAdjust
    rw [if_pos hc]
    exact csdnApplied_hdrUpdate h
  have hch := (crawl_valid_shape h url env hv).1
  have hach := acrawl_valid_shape h url env hv
  refine ⟨⟨by rw [hch]; exact hadj, by rw [hach]; exact hadj, ?_, hadj⟩, ?_, ?_⟩
  · rw [(crawl_valid_shape h url env hv).2, webCrawlBody_getHeaders]
  · intro ops
    exact csdnApplied_runWebOps _ ops (by rw [hch]; exact hadj)
  · intro h' url' env' hc' hv'
    exact ⟨by rw [(crawl_valid_shape h' url' env' hv').2, webCrawlBody_getHeaders],
           csdnApplied_csdnAdjust h' url' hc'⟩

/-- Witness for C9 at a concrete valid CSDN URL. -/
theorem csdn_header_mutation_persists_witness :
    csdnApplied (WebBaseCrawler.crawl initHeaders "http://blog.csdn.net/x"
      ⟨.exc (.requestException "boom"), .ok []⟩).headers :=
  ((csdn_header_mutation_persists initHeaders "http://blog.csdn.net/x"
      ⟨.exc (.requestException "boom"), .ok []⟩ (by decide) (by decide)).1).1
